import Mathlib

/-!
Verification of the better-posture tray utility (src/main.go).

The embedding models time as `Int` nanoseconds (the representation of
Go `time.Duration` and `UnixNano` timestamps), configuration as a
structure mirroring the Go `Config` struct, and the effectful parts
(file reads, JSON parsing, disk writes, notification channels) as
explicit inputs and outputs: a `ReadOutcome` abstracts what
`os.ReadFile` + `json.Unmarshal` produced, and every function that
calls `saveConfig` returns the list of configs it wrote to disk.
-/

namespace BetterPosture

/-- Constants from the `const` block of main.go (lines 50-57). -/
def defaultInterval : Int := 3

def defaultReminderTitle : String := "Posture Reminder"

def defaultReminderMessage : String := "Time to check your posture!"

def minInterval : Int := 1

def maxInterval : Int := 24 * 60

/-- The Go `Config` struct (main.go lines 71-75). -/
structure Config where
  intervalMinutes : Int
  reminderTitle : String
  reminderMessage : String
  deriving Repr, DecidableEq

/-- The default config built at the top of `loadConfig` (main.go lines 188-192). -/
def defaultCfg : Config :=
  { intervalMinutes := defaultInterval
  , reminderTitle := defaultReminderTitle
  , reminderMessage := defaultReminderMessage }

/-- Outcome of `os.ReadFile` followed by `json.Unmarshal` in `loadConfig`:
the read fails (missing file etc.), the bytes are not valid JSON, or a
`Config` value is produced (missing JSON fields give Go zero values,
which are part of the `parsed` case). -/
inductive ReadOutcome where
  | readErr
  | badJSON
  | parsed (cfg : Config)
  deriving Repr, DecidableEq

/-- The Go `loadConfig` (main.go lines 187-241). Returns the config
handed back to the caller together with the list of configs passed to
`saveConfig`, in order. The sanitization block mirrors the four `if`
statements and the `needsSave` flag of the source. -/
def loadConfig (r : ReadOutcome) : Config × List Config :=
  match r with
  | .readErr => (defaultCfg, [defaultCfg])
  | .badJSON => (defaultCfg, [defaultCfg])
  | .parsed cfg0 =>
      let needsSave := false
      let p1 :=
        if cfg0.intervalMinutes < minInterval then
          ({ cfg0 with intervalMinutes := minInterval }, true)
        else (cfg0, needsSave)
      let p2 :=
        if p1.1.intervalMinutes > maxInterval then
          ({ p1.1 with intervalMinutes := maxInterval }, true)
        else p1
      let p3 :=
        if p2.1.reminderTitle = "" then
          ({ p2.1 with reminderTitle := defaultReminderTitle }, true)
        else p2
      let p4 :=
        if p3.1.reminderMessage = "" then
          ({ p3.1 with reminderMessage := defaultReminderMessage }, true)
        else p3
      (p4.1, if p4.2 then [p4.1] else [])

/-- The `updateInterval` closure in `onReady` (main.go lines 391-410):
clamps the requested interval to `[minInterval, maxInterval]`, stores
it in the shared config, and unconditionally calls `saveConfig`.
Returns the new config and the list of configs written to disk. -/
def updateInterval (cfg : Config) (newInterval : Int) : Config × List Config :=
  let n1 := if newInterval < minInterval then minInterval else newInterval
  let n2 := if n1 > maxInterval then maxInterval else n1
  let cfg2 := { cfg with intervalMinutes := n2 }
  (cfg2, [cfg2])

/-- A menu adjustment handler (main.go lines 464-486): each click calls
`updateInterval(cfg.IntervalMinutes + delta)` for its fixed delta. -/
def adjust (cfg : Config) (delta : Int) : Config × List Config :=
  updateInterval cfg (cfg.intervalMinutes + delta)

/-- The reset-to-default handler (main.go lines 488-489):
`updateInterval(defaultInterval)`. -/
def reset (cfg : Config) : Config × List Config :=
  updateInterval cfg defaultInterval

/-- Nanoseconds in one second (`time.Second`). -/
def secondNs : Int := 1000000000

/-- Nanoseconds in one minute (`time.Minute`). -/
def minuteNs : Int := 60 * 1000000000

/-- Go `maxDuration` = `math.MaxInt64` nanoseconds. -/
def maxDuration : Int := 9223372036854775807

/-- Go `minDuration` = `math.MinInt64` nanoseconds. -/
def minDuration : Int := -9223372036854775808

/-- Go `Duration.Round(time.Second)` on `Int` nanoseconds: round to the
nearest multiple of `10^9`, ties away from zero, saturating at the
int64 bounds exactly as the Go implementation does. The Go source
computes a truncated remainder `r := d % m` and negates it in the
`d < 0` branch; here that negated remainder is written directly as
`(-d) % m` (Euclidean, nonnegative), which is the same value. The Go
overflow guards `d1 := d + m - r; d1 > d` and `d1 := d - m + r;
d1 < d` succeed exactly when the unwrapped sum stays inside int64, so
they are modelled as explicit bounds checks returning `maxDuration`
and `minDuration` on failure. -/
def goRoundSecond (d : Int) : Int :=
  let m := secondNs
  if d < 0 then
    let r := (-d) % m
    if r + r < m then d + r
    else if minDuration ≤ d - m + r then d - m + r else minDuration
  else
    let r := d % m
    if r + r < m then d - r
    else if d + m - r ≤ maxDuration then d + m - r else maxDuration

/-- The total-seconds computation of `formatDuration` (main.go lines
333-338): round to the nearest second, convert to whole seconds with
`int(d.Seconds())`, and clamp negatives to zero. The float64
computation inside `Duration.Seconds` followed by the `int` conversion
truncates toward zero, and is exact for every value `goRoundSecond`
can return (multiples of one second, `maxDuration` and `minDuration`);
the truncation is written here via Euclidean division on the absolute
value. -/
def totalClampedSeconds (d : Int) : Int :=
  let dr := goRoundSecond d
  let t := if dr < 0 then -((-dr) / secondNs) else dr / secondNs
  if t < 0 then 0 else t

/-- The Go `formatDuration` (main.go lines 332-345). -/
def formatDuration (d : Int) : String :=
  let t := totalClampedSeconds d
  let h := t / 3600
  let m := (t / 60) % 60
  let s := t % 60
  s!"{h}h {m}m {s}s"

/-- Modelled from the words of the spec, for comparison with
`formatDuration`: total seconds obtained by rounding the duration to
the nearest second (ties away from zero, stated arithmetically rather
than via the Go rounding algorithm), clamped at zero. -/
def specTotalSeconds (d : Int) : Int :=
  let nearest := if d < 0 then -((-d + 500000000) / 1000000000)
                 else (d + 500000000) / 1000000000
  if nearest < 0 then 0 else nearest

/-- Modelled from the words of the spec: render as "{h}h {m}m {s}s"
with hours = total seconds / 3600, minutes = (total seconds / 60) mod
60, seconds = total seconds mod 60. -/
def specFormatDuration (d : Int) : String :=
  let t := specTotalSeconds d
  s!"{t / 3600}h {t / 60 % 60}m {t % 60}s"

/-- The base tooltip of the tick loop (main.go line 360). -/
def baseTooltip : String := "✨Sit smart. Move often. Feel better."

/-- The shared clock state of `onReady`: the `lastTriggeredUnix` atomic
int64 (UnixNano) and the `isMessageShowing` atomic flag
(main.go lines 386-389). -/
structure ClockState where
  lastTriggeredUnix : Int
  isMessageShowing : Bool
  deriving Repr, DecidableEq

/-- Observable effects of one iteration of the ticker branch. -/
structure TickOutput where
  tooltip : String
  countdownTitle : String
  dispatched : Bool
  state : ClockState
  deriving Repr, DecidableEq

/-- One iteration of the `case <-ticker.C` branch (main.go lines
417-462) at time `now` (UnixNano): first the display update, then the
trigger check. When the trigger condition holds the flag is set to
true and a delivery goroutine is dispatched (`dispatched = true`);
`lastTriggeredUnix` is not touched by the tick itself. -/
def tick (intervalMinutes : Int) (st : ClockState) (now : Int) : TickOutput :=
  let disp :=
    if st.isMessageShowing then
      (baseTooltip, "Countdown:")
    else
      let nextTrigger := st.lastTriggeredUnix + intervalMinutes * minuteNs
      let remaining := nextTrigger - now
      if remaining ≤ 0 then
        (baseTooltip, "Countdown:")
      else
        (s!"{baseTooltip} ({formatDuration remaining})",
         s!"Countdown: {formatDuration remaining}")
  if now - st.lastTriggeredUnix ≥ intervalMinutes * minuteNs ∧ st.isMessageShowing = false then
    { tooltip := disp.1, countdownTitle := disp.2, dispatched := true
    , state := { st with isMessageShowing := true } }
  else
    { tooltip := disp.1, countdownTitle := disp.2, dispatched := false
    , state := st }

/-- Observable effects of the delivery goroutine. -/
structure DeliveryOutcome where
  toastAttempted : Bool
  messageBoxShown : Bool
  state : ClockState
  deriving Repr, DecidableEq

/-- The delivery goroutine (main.go lines 454-461): call `showToast`;
if it returned an error, call `showMessage`; in either case clear
`isMessageShowing` and store the completion time into
`lastTriggeredUnix`. `primaryErr` abstracts whether
`notification.Push()` inside `showToast` (main.go lines 264-283)
returned an error. -/
def deliveryRoutine (primaryErr : Bool) (completionTime : Int) : DeliveryOutcome :=
  { toastAttempted := true
  , messageBoxShown := primaryErr
  , state := { isMessageShowing := false, lastTriggeredUnix := completionTime } }

end BetterPosture

namespace BetterPosture

/-! ## Helper lemmas -/

/-- The clamped-seconds computation of the code agrees with the
arithmetic nearest-second rounding of the spec for every duration
below the positive int64 saturation threshold (negative saturation is
invisible because both sides clamp to zero). -/
lemma totalClampedSeconds_eq_spec (d : Int) (hd : d < 9223372036500000000) :
    totalClampedSeconds d = specTotalSeconds d := by
  simp only [totalClampedSeconds, goRoundSecond, specTotalSeconds, secondNs,
    maxDuration, minDuration]
  split_ifs <;> omega

/-- The interval stored by `adjust` is the clamp of current + delta. -/
lemma adjust_intervalMinutes (cfg : Config) (d : Int) :
    (adjust cfg d).1.intervalMinutes
      = min maxInterval (max minInterval (cfg.intervalMinutes + d)) := by
  simp only [adjust, updateInterval, minInterval, maxInterval]
  split_ifs <;> omega

/-! ## Claims -/

/-- C5: when the settings file is missing or its content is invalid
JSON, `loadConfig` returns exactly the default config
{3, "Posture Reminder", "Time to check your posture!"} and writes that
default config to disk; no error escapes to the caller. -/
theorem load_defaults_on_missing_or_invalid :
    loadConfig .readErr = (defaultCfg, [defaultCfg])
    ∧ loadConfig .badJSON = (defaultCfg, [defaultCfg])
    ∧ defaultCfg = { intervalMinutes := 3
                   , reminderTitle := "Posture Reminder"
                   , reminderMessage := "Time to check your posture!" } :=
  ⟨rfl, rfl, rfl⟩

/-- C8: `reset` always stores exactly the fixed default interval of 3
minutes and persists the resulting config, for every prior config. -/
theorem reset_sets_default_and_persists (cfg : Config) :
    (reset cfg).1.intervalMinutes = defaultInterval
    ∧ (reset cfg).2 = [(reset cfg).1] :=
  ⟨rfl, rfl⟩

/-- C7: the delivery goroutine always attempts the primary (toast)
channel, attempts the secondary (message box) channel if and only if
the primary returned an error, and in every outcome clears
`isMessageShowing` and sets `lastTriggeredUnix` to the completion
time, so a failed primary attempt leaves the clock state identical to
a successful one. -/
theorem delivery_fallback_and_reset (primaryErr : Bool) (t : Int) :
    (deliveryRoutine primaryErr t).toastAttempted = true
    ∧ ((deliveryRoutine primaryErr t).messageBoxShown = true ↔ primaryErr = true)
    ∧ (deliveryRoutine primaryErr t).state.isMessageShowing = false
    ∧ (deliveryRoutine primaryErr t).state.lastTriggeredUnix = t
    ∧ (deliveryRoutine true t).state = (deliveryRoutine false t).state :=
  ⟨rfl, Iff.rfl, rfl, rfl, rfl⟩

/-- C6 counterexample: at 9223372036500000000 ns the program saturates
`Duration.Round` at `maxDuration` and renders total seconds 9223372036
("2562047h 47m 16s"), while the nearest-second formula of the claim
gives 9223372037 ("2562047h 47m 17s"). -/
theorem formatDuration_saturation_counterexample :
    formatDuration 9223372036500000000 = "2562047h 47m 16s"
    ∧ specFormatDuration 9223372036500000000 = "2562047h 47m 17s"
    ∧ formatDuration 9223372036500000000 ≠ specFormatDuration 9223372036500000000 := by
  refine ⟨by decide, by decide, by decide⟩

/-- C6 (amended): for every duration below the int64 saturation
threshold of `Duration.Round` (9223372036500000000 ns),
`formatDuration` renders the duration rounded to the nearest second
and clamped at zero as "{h}h {m}m {s}s" with h = total/3600,
m = (total/60) mod 60, s = total mod 60; 3661 seconds renders as
"1h 1m 1s" and every nonpositive duration renders as "0h 0m 0s". -/
theorem formatDuration_matches_spec (d : Int) :
    (d < 9223372036500000000 → formatDuration d = specFormatDuration d)
    ∧ formatDuration (3661 * secondNs) = "1h 1m 1s"
    ∧ formatDuration 0 = "0h 0m 0s"
    ∧ (d ≤ 0 → formatDuration d = "0h 0m 0s") := by
  refine ⟨?_, by decide, by decide, ?_⟩
  · intro hd
    simp only [formatDuration, specFormatDuration, totalClampedSeconds_eq_spec d hd]
  · intro hd
    have ht : totalClampedSeconds d = 0 := by
      simp only [totalClampedSeconds, goRoundSecond, secondNs, maxDuration, minDuration]
      split_ifs <;> omega
    simp only [formatDuration, ht]
    rfl

/-- C6 witness: both hypotheses discharged at concrete inputs: the
3661-second duration is below the saturation threshold and agrees with
the spec formula, and a negative second renders as "0h 0m 0s". -/
theorem formatDuration_matches_spec_witness :
    formatDuration 3661000000000 = specFormatDuration 3661000000000
    ∧ formatDuration (-1000000000) = "0h 0m 0s" :=
  ⟨(formatDuration_matches_spec 3661000000000).1 (by decide),
   (formatDuration_matches_spec (-1000000000)).2.2.2 (by decide)⟩

/-- C10: every output of `formatDuration` has nonnegative hours and
minutes and seconds components within [0, 59]; the hours component is
not capped at 24, so a 25-hour duration renders as "25h 0m 0s". -/
theorem formatDuration_component_bounds (d : Int) :
    (∃ h m s : Int,
      formatDuration d = s!"{h}h {m}m {s}s"
      ∧ 0 ≤ h ∧ 0 ≤ m ∧ m ≤ 59 ∧ 0 ≤ s ∧ s ≤ 59)
    ∧ formatDuration (90000 * secondNs) = "25h 0m 0s" := by
  refine ⟨?_, by decide⟩
  have ht : 0 ≤ totalClampedSeconds d := by
    simp only [totalClampedSeconds]
    split_ifs <;> omega
  refine ⟨totalClampedSeconds d / 3600, totalClampedSeconds d / 60 % 60,
    totalClampedSeconds d % 60, ?_, by omega, by omega, by omega, by omega, by omega⟩
  simp only [formatDuration]

/-- C3: `adjust` stores current + delta clamped to [1, 1440] and
persists unconditionally; for current and delta in [1, 1440] the
stored interval stays in [1, 1440]; and the stored interval is
monotonically non-decreasing in delta. -/
theorem adjust_clamps_monotone_persists (cfg : Config) (delta d1 d2 : Int)
    (_hc1 : minInterval ≤ cfg.intervalMinutes) (_hc2 : cfg.intervalMinutes ≤ maxInterval)
    (_hd1 : minInterval ≤ delta) (_hd2 : delta ≤ maxInterval)
    (hmono : d1 ≤ d2) :
    (∀ d : Int,
      (adjust cfg d).1.intervalMinutes
        = min maxInterval (max minInterval (cfg.intervalMinutes + d))
      ∧ (adjust cfg d).2 = [(adjust cfg d).1])
    ∧ minInterval ≤ (adjust cfg delta).1.intervalMinutes
    ∧ (adjust cfg delta).1.intervalMinutes ≤ maxInterval
    ∧ (adjust cfg d1).1.intervalMinutes ≤ (adjust cfg d2).1.intervalMinutes := by
  have hs : ∀ d : Int, (adjust cfg d).2 = [(adjust cfg d).1] := fun d => rfl
  refine ⟨fun d => ⟨adjust_intervalMinutes cfg d, hs d⟩, ?_, ?_, ?_⟩
  · rw [adjust_intervalMinutes]
    simp only [minInterval, maxInterval]; omega
  · rw [adjust_intervalMinutes]
    simp only [minInterval, maxInterval]; omega
  · rw [adjust_intervalMinutes, adjust_intervalMinutes]
    simp only [minInterval, maxInterval]; omega

/-- C3 witness: a concrete adjustment from interval 3 by +5 minutes. -/
theorem adjust_clamps_monotone_persists_witness :
    (adjust ⟨3, "a", "b"⟩ 5).1.intervalMinutes
      ≤ (adjust ⟨3, "a", "b"⟩ 30).1.intervalMinutes :=
  (adjust_clamps_monotone_persists ⟨3, "a", "b"⟩ 5 5 30
    (by decide) (by decide) (by decide) (by decide) (by decide)).2.2.2

/-- C4: a parsed settings file with an out-of-range interval or an
empty title or message is sanitized (interval clamped to [1, 1440],
empty strings replaced by the defaults) and the sanitized config is
written back to disk; in particular interval 99999 yields 1440. -/
theorem load_sanitizes_and_resaves (cfg : Config)
    (hbad : cfg.intervalMinutes < minInterval ∨ maxInterval < cfg.intervalMinutes
          ∨ cfg.reminderTitle = "" ∨ cfg.reminderMessage = "") :
    (loadConfig (.parsed cfg)).1 =
      { intervalMinutes := min maxInterval (max minInterval cfg.intervalMinutes)
      , reminderTitle :=
          if cfg.reminderTitle = "" then defaultReminderTitle else cfg.reminderTitle
      , reminderMessage :=
          if cfg.reminderMessage = "" then defaultReminderMessage else cfg.reminderMessage }
    ∧ (loadConfig (.parsed cfg)).2 = [(loadConfig (.parsed cfg)).1]
    ∧ (loadConfig (.parsed ⟨99999, "x", "y"⟩)).1.intervalMinutes = 1440 := by
  refine ⟨?_, ?_, by decide⟩ <;>
  · simp only [loadConfig, minInterval, maxInterval] at *
    split_ifs at * <;> simp_all <;> omega

/-- C4 witness: loading interval 99999 clamps to 1440 and re-saves. -/
theorem load_sanitizes_and_resaves_witness :
    (loadConfig (.parsed ⟨99999, "x", "y"⟩)).2
      = [(loadConfig (.parsed ⟨99999, "x", "y"⟩)).1] :=
  (load_sanitizes_and_resaves ⟨99999, "x", "y"⟩ (by right; left; decide)).2.1

/-- C9: a parsed settings file that already satisfies the invariant
(interval in [1, 1440], non-empty title and message) is returned
unchanged and nothing is written to disk. -/
theorem load_valid_config_no_resave (cfg : Config)
    (h1 : minInterval ≤ cfg.intervalMinutes) (h2 : cfg.intervalMinutes ≤ maxInterval)
    (h3 : cfg.reminderTitle ≠ "") (h4 : cfg.reminderMessage ≠ "") :
    loadConfig (.parsed cfg) = (cfg, []) := by
  simp only [loadConfig, minInterval, maxInterval] at *
  split_ifs <;> simp_all <;> omega

/-- C9 witness: a well-formed config is loaded without a re-save. -/
theorem load_valid_config_no_resave_witness :
    loadConfig (.parsed ⟨5, "a", "b"⟩) = (⟨5, "a", "b"⟩, []) :=
  load_valid_config_no_resave ⟨5, "a", "b"⟩
    (by decide) (by decide) (by decide) (by decide)

/-- C1: on a tick taken while no notification is showing, a delivery is
dispatched iff now - lastTriggeredUnix has reached the interval; a
dispatching tick sets the showing flag before the delivery runs and
never touches lastTriggeredUnix, which is updated only when the
delivery goroutine completes; with interval 5 starting at time 0, the
tick one second before the 5-minute mark does not dispatch, the tick
at the 5-minute mark dispatches, and the following tick dispatches
nothing further. -/
theorem tick_trigger_iff_elapsed (intervalMinutes : Int) (st : ClockState) (now : Int)
    (h : st.isMessageShowing = false) :
    ((tick intervalMinutes st now).dispatched = true
      ↔ intervalMinutes * minuteNs ≤ now - st.lastTriggeredUnix)
    ∧ ((tick intervalMinutes st now).dispatched = true →
        (tick intervalMinutes st now).state.isMessageShowing = true)
    ∧ (tick intervalMinutes st now).state.lastTriggeredUnix = st.lastTriggeredUnix
    ∧ (∀ b : Bool, ∀ t : Int, (deliveryRoutine b t).state.lastTriggeredUnix = t)
    ∧ (tick 5 ⟨0, false⟩ (5 * minuteNs - secondNs)).dispatched = false
    ∧ (tick 5 ⟨0, false⟩ (5 * minuteNs)).dispatched = true
    ∧ (tick 5 (tick 5 ⟨0, false⟩ (5 * minuteNs)).state (5 * minuteNs + secondNs)).dispatched
        = false := by
  refine ⟨?_, ?_, ?_, fun b t => rfl, by decide, by decide, by decide⟩ <;>
  · simp only [tick, h]
    split_ifs <;> simp_all

/-- C1 witness: the boundary tick at exactly 5 minutes dispatches. -/
theorem tick_trigger_iff_elapsed_witness :
    (tick 5 ⟨0, false⟩ (5 * minuteNs)).dispatched = true :=
  (tick_trigger_iff_elapsed 5 ⟨0, false⟩ 0 rfl).2.2.2.2.2.1

/-- C2: on a tick taken while a notification is showing, no delivery is
dispatched regardless of elapsed time, the display shows only the base
tooltip with an empty countdown label, and the clock state is left
unchanged. -/
theorem tick_suppressed_while_showing (intervalMinutes : Int) (st : ClockState) (now : Int)
    (h : st.isMessageShowing = true) :
    (tick intervalMinutes st now).dispatched = false
    ∧ (tick intervalMinutes st now).tooltip = baseTooltip
    ∧ (tick intervalMinutes st now).countdownTitle = "Countdown:"
    ∧ (tick intervalMinutes st now).state = st := by
  simp only [tick, h]
  split_ifs <;> simp_all

/-- C2 witness: a tick long past the interval while showing stays
silent. -/
theorem tick_suppressed_while_showing_witness :
    (tick 1 ⟨0, true⟩ (1000 * minuteNs)).dispatched = false :=
  (tick_suppressed_while_showing 1 ⟨0, true⟩ (1000 * minuteNs) rfl).1

end BetterPosture
